import Mathlib

/-!
Shallow embedding of the resilient operational worker of the
fastapi-monitoring-and-observability repository
(source file `src/tools/seed_worker/worker.py`) together with the
readiness gate of the API startup sequence (`src/app/main.py`), and a
verification of the specified properties of these components.

Conventions of the embedding:
* HTTP traffic is modelled by `HttpResp`: either a response carrying a
  status code and a typed body, or a transport fault (the client-library
  exceptions the worker catches: per-call timeout, connection refused).
* Randomness is passed in explicitly: `random.random()` draws become
  rational arguments in `[0,1)`, `random.choice` becomes an index into the
  population, and `random.sample(pop, k)` is modelled as the `k`-prefix of
  a uniformly shuffled copy of the population supplied by the caller.
* Wall-clock time is passed in explicitly as the sequence of integer
  observations the program makes; the infinite deadline produced by
  `CYCLE_S <= 0` becomes the `none` case of an optional deadline.
* Operations that never raise past their boundary are total functions;
  `wait_for_db_sync`, which can re-raise after its deadline, returns an
  `Except` value.
-/

/-- Transport-level failures a call may hit; every operation in
`worker.py` catches them in its catch-all arm and converts them to the
documented result. -/
inductive TransportFault : Type
  | timeout
  | connRefused
  deriving DecidableEq

/-- Outcome of one HTTP request: a status code with a typed body, or a
transport fault raised by the client library. -/
inductive HttpResp (β : Type) : Type
  | response (status : Nat) (body : β)
  | transportFault (f : TransportFault)
  deriving DecidableEq

/-- Body of a create response as the worker reads it at `worker.py` line
65: the value of the "id" field, `none` when the field is missing.  The
remote contract returns an integer id on success. -/
structure CreateBody : Type where
  id : Option Int
  deriving DecidableEq

/-- Value of the "id" field of one listed record: an integer or some
non-integer JSON value (filtered out at `worker.py` line 223). -/
inductive JIdVal : Type
  | jint (n : Int)
  | jother
  deriving DecidableEq

/-- One element of a listing response, with the two attributes the drain
phase inspects at `worker.py` line 221: Python truthiness of the record
and its "id" field (`none` models both a missing field and JSON null,
which `dict.get` reports identically). -/
structure JItem : Type where
  truthy : Bool
  id : Option JIdVal
  deriving DecidableEq

/-- Embedding of `create_item` (`worker.py` lines 59-74): on status 200 or
201 return the body's "id" value (possibly absent), on any other status or
on a transport fault return `none`.  The function is total: no exception
escapes it. -/
def create_item (resp : HttpResp CreateBody) : Option Int :=
  match resp with
  | HttpResp.response st body => if st = 200 ∨ st = 201 then body.id else none
  | HttpResp.transportFault _ => none

/-- Embedding of `get_items` (`worker.py` lines 77-88): on status 200
return the listed records, otherwise (or on a transport fault) the empty
list.  Total. -/
def get_items (resp : HttpResp (List JItem)) : List JItem :=
  match resp with
  | HttpResp.response st body => if st = 200 then body else []
  | HttpResp.transportFault _ => []

/-- Embedding of `get_item` (`worker.py` lines 91-101): on status 200
return the record, otherwise `none`.  Total. -/
def get_item {β : Type} (resp : HttpResp β) : Option β :=
  match resp with
  | HttpResp.response st body => if st = 200 then some body else none
  | HttpResp.transportFault _ => none

/-- Partial update payload built at `worker.py` lines 105-109: each field
is independently present or absent. -/
structure UpdatePayload : Type where
  nom : Option String
  prix : Option ℚ
  deriving DecidableEq

/-- Embedding of `update_item` (`worker.py` lines 104-121).  The payload
includes the name field when the first draw is below 0.5 and the price
field when the second draw is below 0.8; the PUT succeeds only on status
200.  Returns the payload that was sent together with the boolean result.
Total. -/
def update_item (r1 r2 : ℚ) (nomVal : String) (prixVal : ℚ)
    (resp : HttpResp Unit) : UpdatePayload × Bool :=
  let payload : UpdatePayload :=
    { nom := if r1 < 1/2 then some nomVal else none
      prix := if r2 < 4/5 then some prixVal else none }
  match resp with
  | HttpResp.response st _ => if st = 200 then (payload, true) else (payload, false)
  | HttpResp.transportFault _ => (payload, false)

/-- Embedding of `delete_item` (`worker.py` lines 124-134): success on
status 200 or 204, `false` otherwise or on a transport fault.  Total. -/
def delete_item (resp : HttpResp Unit) : Bool :=
  match resp with
  | HttpResp.response st _ => if st = 200 ∨ st = 204 then true else false
  | HttpResp.transportFault _ => false

/-- The fault classes of the isolation property: per-call timeout,
connection refused, any 4xx status, any 5xx status. -/
inductive CallFault : Type
  | timeout
  | connRefused
  | status4xx (c : Nat)
  | status5xx (c : Nat)
  deriving DecidableEq

/-- Well-formedness of a fault: status faults carry a code in the
corresponding range. -/
def CallFault.wf : CallFault → Prop
  | CallFault.status4xx c => 400 ≤ c ∧ c < 500
  | CallFault.status5xx c => 500 ≤ c ∧ c < 600
  | _ => True

/-- The HTTP outcome a given fault produces for a call whose successful
body would have been `body`. -/
def faultHttp {β : Type} (f : CallFault) (body : β) : HttpResp β :=
  match f with
  | CallFault.timeout => HttpResp.transportFault TransportFault.timeout
  | CallFault.connRefused => HttpResp.transportFault TransportFault.connRefused
  | CallFault.status4xx c => HttpResp.response c body
  | CallFault.status5xx c => HttpResp.response c body

/-- The five operations the selector draws from (`worker.py` line 139). -/
inductive Op : Type
  | create
  | list
  | get
  | update
  | delete
  deriving DecidableEq

/-- The weight list of `choose_op` (`worker.py` line 140):
`[0.4, 0.2, 0.15, 0.15, 0.1]` for create, list, get, update, delete. -/
def opWeights : List ℚ := [4/10, 2/10, 15/100, 15/100, 1/10]

/-- Embedding of `choose_op` (`worker.py` lines 137-141).
`random.choices(ops, weights, k=1)[0]` computes the cumulative weights
`[0.4, 0.6, 0.75, 0.9, 1.0]` and returns the first operation whose
cumulative weight exceeds the uniform draw `r`.  The `created_ids`
argument is kept because the source function takes it, and like the
source the definition makes no use of it. -/
def choose_op (created_ids : List Int) (r : ℚ) : Op :=
  if r < 4/10 then Op.create
  else if r < 6/10 then Op.list
  else if r < 75/100 then Op.get
  else if r < 9/10 then Op.update
  else Op.delete

/-- Result of one readiness probe of the worker (`worker.py` line 161):
a status code, or an exception (caught at line 166). -/
inductive ProbeResult : Type
  | ok (status : Nat)
  | exn
  deriving DecidableEq

/-- A probe succeeds exactly when it returns status 200
(`worker.py` line 162). -/
def probeSuccess (pr : ProbeResult) : Bool :=
  match pr with
  | ProbeResult.ok st => st == 200
  | ProbeResult.exn => false

/-- Embedding of `wait_for_api` (`worker.py` lines 155-170).  Each list
entry is one trip around the `while` loop: the time observed by the
pre-probe deadline check paired with the probe's outcome.  A failing
deadline check exits the loop and returns `false`; a 200 probe returns
`true`; any other status and any exception are absorbed and the loop
continues.  `none` means the supplied schedule ended before the function
returned (the run is still polling). -/
def wait_for_api (endT : Int) : List (Int × ProbeResult) → Option Bool
  | [] => none
  | (t, pr) :: rest =>
      if t < endT then
        if probeSuccess pr then some true else wait_for_api endT rest
      else some false

/-- Result of one database probe of the API startup gate
(`src/app/main.py` line 36-37): the trivial query succeeds or raises. -/
inductive DbProbe : Type
  | ok
  | exn
  deriving DecidableEq

/-- Embedding of `wait_for_db_sync` (`src/app/main.py` lines 32-47).
Each entry is one trip around the `while True` loop: the probe outcome,
and the time the exception handler observes when the probe raised.  A
successful probe returns normally; an exception past the deadline is
re-raised (`Except.error`); an exception within the deadline is absorbed
and the loop continues.  `none` means the supplied schedule ended before
the function returned. -/
def wait_for_db_sync (endT : Int) : List (Int × DbProbe) → Option (Except Unit Unit)
  | [] => none
  | (t, pr) :: rest =>
      match pr with
      | DbProbe.ok => some (Except.ok ())
      | DbProbe.exn =>
          if endT < t then some (Except.error ())
          else wait_for_db_sync endT rest

/-- Python truthiness of the `item_id` value tested at `worker.py` line
190: `None` and `0` are falsy, every other integer is truthy. -/
def pyTruthyOptInt (v : Option Int) : Bool :=
  match v with
  | none => false
  | some n => n != 0

/-- Mutable state of the worker loop (`worker.py` lines 172-173):
the tracked identifier list and the current backoff delay in seconds. -/
structure LoopState : Type where
  createdIds : List Int
  backoff : ℚ
  deriving DecidableEq

/-- Loop-entry state: `created_ids = []`, `backoff = 1.0`. -/
def initState : LoopState := { createdIds := [], backoff := 1 }

/-- Environment of one loop iteration: the `random.choices` draw behind
`choose_op`, whether this iteration raises an exception that escapes the
per-call isolation (the `except` arm at `worker.py` line 211), the
`random.choice` index used to pick a target id, and the responses of the
two calls whose results the loop actually branches on (create and
delete).  List, get and update responses do not influence the loop state
and are therefore not part of the iteration environment. -/
structure IterInput : Type where
  opRand : ℚ
  fault : Bool
  choiceIdx : Nat
  createResp : HttpResp CreateBody
  delResp : HttpResp Unit
  deriving DecidableEq

/-- One remote call issued by the worker, as recorded in the run trace. -/
inductive ApiCall : Type
  | callCreate
  | callList
  | callGet (id : Int)
  | callUpdate (id : Int)
  | callDelete (id : Int)
  deriving DecidableEq

/-- Embedding of one iteration of the worker loop body (`worker.py` lines
186-214).  Returns the successor state and the remote calls the iteration
issued.  A create whose returned id is truthy appends it and resets the
backoff to 1.0; a successful delete removes the first occurrence of the
chosen target (`list.remove`, with `ValueError` suppressed); get degrades
to a filtered list call when no ids are tracked; update and delete are
skipped when no ids are tracked.  An iteration whose exception escapes
isolation changes no tracked state, sleeps the current backoff and
doubles it up to the cap of 30. -/
def stepIter (s : LoopState) (inp : IterInput) : LoopState × List ApiCall :=
  if inp.fault then
    ({ s with backoff := min (s.backoff * 2) 30 }, [])
  else
    match choose_op s.createdIds inp.opRand with
    | Op.create =>
        let item_id := create_item inp.createResp
        if pyTruthyOptInt item_id then
          ({ createdIds := s.createdIds ++ [item_id.getD 0], backoff := 1 },
           [ApiCall.callCreate])
        else (s, [ApiCall.callCreate])
    | Op.list => (s, [ApiCall.callList])
    | Op.get =>
        if s.createdIds.isEmpty then (s, [ApiCall.callList])
        else
          (s, [ApiCall.callGet (s.createdIds.getD (inp.choiceIdx % s.createdIds.length) 0)])
    | Op.update =>
        if s.createdIds.isEmpty then (s, [])
        else
          (s, [ApiCall.callUpdate (s.createdIds.getD (inp.choiceIdx % s.createdIds.length) 0)])
    | Op.delete =>
        if s.createdIds.isEmpty then (s, [])
        else
          let target := s.createdIds.getD (inp.choiceIdx % s.createdIds.length) 0
          if delete_item inp.delResp then
            ({ s with createdIds := s.createdIds.erase target }, [ApiCall.callDelete target])
          else (s, [ApiCall.callDelete target])

/-- Whether an iteration with environment `inp` appends the identifier `x`
to the tracked list: it must not fault, select create, and obtain a
truthy id equal to `x`. -/
def appendsId (inp : IterInput) (x : Int) : Bool :=
  if inp.fault then false
  else
    match choose_op [] inp.opRand with
    | Op.create =>
        match create_item inp.createResp with
        | some v => v != 0 && v == x
        | none => false
    | _ => false

/-- The run deadline of `worker.py` line 175:
`end = start + CYCLE_S if CYCLE_S > 0 else float("inf")`; `none` models
the infinite deadline. -/
def computeEnd (start cycle : Int) : Option Int :=
  if 0 < cycle then some (start + cycle) else none

/-- The loop condition of `worker.py` line 185: `time.time() < end`, which
is always true against the infinite deadline. -/
def beforeDeadline (now : Int) (endT : Option Int) : Bool :=
  match endT with
  | none => true
  | some e => decide (now < e)

/-- One scheduled trip around the worker loop: the time observed by the
deadline check and the iteration environment used if the check passes. -/
structure TimedInput : Type where
  t : Int
  inp : IterInput

/-- Result of running the loop over a schedule: final state, trace of
calls, number of iterations executed, and whether the loop exited through
a failing deadline check (reaching the drain phase). -/
structure ItersResult : Type where
  state : LoopState
  calls : List ApiCall
  iters : Nat
  drained : Bool

/-- The `while time.time() < end` loop of `worker.py` lines 185-214 over
an explicit schedule of deadline-check times and iteration environments.
An exhausted schedule leaves the loop still running (`drained = false`
without a drain transition); a failing check exits to the drain phase. -/
def runIters (endT : Option Int) (s : LoopState) : List TimedInput → ItersResult
  | [] => { state := s, calls := [], iters := 0, drained := false }
  | ti :: rest =>
      if beforeDeadline ti.t endT then
        let r1 := stepIter s ti.inp
        let r2 := runIters endT r1.1 rest
        { state := r2.state, calls := r1.2 ++ r2.calls,
          iters := r2.iters + 1, drained := r2.drained }
      else { state := s, calls := [], iters := 0, drained := true }

/-- The id extraction of the drain phase (`worker.py` lines 221-223):
keep truthy records whose "id" field is present, take the field values,
then keep only the integers. -/
def extractValidIds (all_items : List JItem) : List Int :=
  let ids := all_items.filterMap (fun i => if i.truthy then i.id else none)
  ids.filterMap (fun v => match v with | JIdVal.jint n => some n | JIdVal.jother => none)

/-- Model of `random.sample(pop, k)`: the `k`-prefix of a uniformly
shuffled copy of the population (supplied by the caller as the oracle
`shuffled`), which is exactly a uniform draw of `k` elements without
replacement. -/
def pySample (shuffled : List Int) (k : Nat) : List Int := shuffled.take k

/-- The drain-phase sampling of `worker.py` lines 220-228: list all
items, extract the valid integer ids, and when any exist sample
`min 5 (number of valid ids)` of them without replacement. -/
def drainDiagnostics (resp : HttpResp (List JItem)) (shuffled : List Int) : List Int :=
  let valid_ids := extractValidIds (get_items resp)
  if valid_ids.isEmpty then []
  else pySample shuffled (min 5 valid_ids.length)

/-- Observable result of one worker run. -/
structure RunResult : Type where
  aborted : Bool
  runningIters : Nat
  reachedDrain : Bool
  drainListings : Nat
  sampledIds : List Int
  trace : List ApiCall

/-- Embedding of `main` (`worker.py` lines 144-232): abort with no calls
when the readiness gate failed; otherwise run the loop against the
deadline derived from `CYCLE_S`, and if the loop exits through a failing
deadline check perform the drain diagnostics — one listing call and one
get per sampled id. -/
def runWorker (cycle start : Int) (gateOk : Bool) (sched : List TimedInput)
    (drainResp : HttpResp (List JItem)) (shuffled : List Int) : RunResult :=
  if gateOk then
    let endT := computeEnd start cycle
    let r := runIters endT initState sched
    if r.drained then
      let samp := drainDiagnostics drainResp shuffled
      { aborted := false, runningIters := r.iters, reachedDrain := true,
        drainListings := 1, sampledIds := samp,
        trace := r.calls ++ ApiCall.callList :: samp.map ApiCall.callGet }
    else
      { aborted := false, runningIters := r.iters, reachedDrain := false,
        drainListings := 0, sampledIds := [], trace := r.calls }
  else
    { aborted := true, runningIters := 0, reachedDrain := false,
      drainListings := 0, sampledIds := [], trace := [] }

/-- Fixed name value used in concrete examples. -/
def exNom : String := "w"

/-- Benign iteration environment: the operation draw 0.5 selects the list
operation, no unexpected fault, and the call responses are transport
faults (unused by a list iteration). -/
def inp0 : IterInput :=
  { opRand := 1/2, fault := false, choiceIdx := 0,
    createResp := HttpResp.transportFault TransportFault.timeout,
    delResp := HttpResp.transportFault TransportFault.timeout }

/-- Iteration whose exception escapes the per-call isolation. -/
def inpFault : IterInput := { inp0 with fault := true }

/-- Create iteration whose response is 200 with id 7. -/
def inpCreate7 : IterInput :=
  { inp0 with opRand := 0, createResp := HttpResp.response 200 { id := some 7 } }

/-- Create iteration whose response is 200 with id 0. -/
def inpCreateZero : IterInput :=
  { inp0 with opRand := 0, createResp := HttpResp.response 200 { id := some 0 } }

/-- Delete iteration (draw 0.95) whose delete call succeeds with 200 and
whose target choice index is 0. -/
def inpDeleteOk : IterInput :=
  { inp0 with opRand := 95/100, delResp := HttpResp.response 200 () }

/-- Three benign loop trips at times 100, 101, 102. -/
def exSched3 : List TimedInput :=
  [{ t := 100, inp := inp0 }, { t := 101, inp := inp0 }, { t := 102, inp := inp0 }]

/-- Two benign loop trips at times 50, 51. -/
def exSched2 : List TimedInput :=
  [{ t := 50, inp := inp0 }, { t := 51, inp := inp0 }]

/-- Listing response with two valid items, ids 1 and 2. -/
def exListResp : HttpResp (List JItem) :=
  HttpResp.response 200
    [{ truthy := true, id := some (JIdVal.jint 1) },
     { truthy := true, id := some (JIdVal.jint 2) }]

/-- A shuffled copy of the valid ids of `exListResp`. -/
def exShuffled : List Int := [2, 1]

/-- The source selector ignores its tracked-identifier argument, so it
computes the same operation for any tracked list. -/
theorem choose_op_const (ids : List Int) (r : ℚ) : choose_op ids r = choose_op [] r := rfl

/-- C2: for every fault among per-call timeout, connection refused, 4xx
status and 5xx status, the five ActionClient operations return `none`,
the empty list, `none`, `false` and `false` respectively; being total
functions of the response, none of them raises to its caller. -/
theorem c2_operations_isolate_faults (f : CallFault) (hwf : f.wf)
    (cb : CreateBody) (lb : List JItem) (gb : JItem)
    (r1 r2 prixVal : ℚ) (nomVal : String) :
    create_item (faultHttp f cb) = none ∧
    get_items (faultHttp f lb) = [] ∧
    get_item (faultHttp f gb) = none ∧
    (update_item r1 r2 nomVal prixVal (faultHttp f ())).2 = false ∧
    delete_item (faultHttp f ()) = false := by
  cases f with
  | timeout => exact ⟨rfl, rfl, rfl, rfl, rfl⟩
  | connRefused => exact ⟨rfl, rfl, rfl, rfl, rfl⟩
  | status4xx c =>
      obtain ⟨h1, h2⟩ := hwf
      refine ⟨?_, ?_, ?_, ?_, ?_⟩
      · have hc : ¬ (c = 200 ∨ c = 201) := by omega
        simp [create_item, faultHttp, hc]
      · have hc : ¬ c = 200 := by omega
        simp [get_items, faultHttp, hc]
      · have hc : ¬ c = 200 := by omega
        simp [get_item, faultHttp, hc]
      · have hc : ¬ c = 200 := by omega
        simp [update_item, faultHttp, hc]
      · have hc : ¬ (c = 200 ∨ c = 204) := by omega
        simp [delete_item, faultHttp, hc]
  | status5xx c =>
      obtain ⟨h1, h2⟩ := hwf
      refine ⟨?_, ?_, ?_, ?_, ?_⟩
      · have hc : ¬ (c = 200 ∨ c = 201) := by omega
        simp [create_item, faultHttp, hc]
      · have hc : ¬ c = 200 := by omega
        simp [get_items, faultHttp, hc]
      · have hc : ¬ c = 200 := by omega
        simp [get_item, faultHttp, hc]
      · have hc : ¬ c = 200 := by omega
        simp [update_item, faultHttp, hc]
      · have hc : ¬ (c = 200 ∨ c = 204) := by omega
        simp [delete_item, faultHttp, hc]

/-- Witness for C2 at the concrete fault of a 404 status. -/
theorem c2_witness :
    create_item (faultHttp (CallFault.status4xx 404) { id := some 1 }) = none ∧
    get_items (faultHttp (CallFault.status4xx 404) []) = [] ∧
    get_item (faultHttp (CallFault.status4xx 404)
      ({ truthy := true, id := some (JIdVal.jint 1) } : JItem)) = none ∧
    (update_item 0 0 exNom 1 (faultHttp (CallFault.status4xx 404) ())).2 = false ∧
    delete_item (faultHttp (CallFault.status4xx 404) ()) = false := by
  exact c2_operations_isolate_faults (CallFault.status4xx 404)
    (show (400:Nat) ≤ 404 ∧ 404 < 500 by omega)
    { id := some 1 } [] { truthy := true, id := some (JIdVal.jint 1) } 0 0 1 exNom

/-- C3: evaluation of the worker loop at the failing input — one
iteration raising an unexpected fault (the base delay 1.0 is slept, the
backoff doubles to 2.0) followed by one iteration that completes without
an unexpected fault (a list operation).  The clean iteration leaves the
backoff at 2.0 instead of resetting it to the base 1.0: the reset
statement sits only inside the successful-create branch (`worker.py`
line 192), although the comment at line 209 describes the pre-sleep
point reached by every clean iteration as the success path on which the
backoff resets. -/
theorem c3_clean_iteration_keeps_backoff :
    (stepIter (stepIter initState inpFault).1 inp0).1.backoff = 2 := by
  have h1 : (stepIter initState inpFault).1 = { createdIds := [], backoff := 2 } := by
    simp [stepIter, inpFault, inp0, initState, min_def]
    norm_num
  rw [h1]
  norm_num [stepIter, inp0, choose_op]

/-- C6 counterexample: the selector is not conditioned on whether any
tracked identifiers exist — with a non-empty tracked list it is the very
same function of the random draw as with the empty list. -/
theorem c6_counterexample : choose_op [1] = choose_op [] := rfl

/-- C6 amended: the selector draws from the fixed weighted distribution
0.4 / 0.2 / 0.15 / 0.15 / 0.1 over create, list, get, update, delete —
create heaviest, then list, then get and update equal, delete lightest —
and is a deterministic function of the random draw, but the distribution
is not conditioned on the tracked identifiers: the selector computes the
same operation whatever the tracked list is. -/
theorem c6_amended (ids : List Int) (r : ℚ) :
    choose_op ids r = choose_op [] r ∧
    (r < 4/10 → choose_op ids r = Op.create) ∧
    (4/10 ≤ r → r < 6/10 → choose_op ids r = Op.list) ∧
    (6/10 ≤ r → r < 75/100 → choose_op ids r = Op.get) ∧
    (75/100 ≤ r → r < 9/10 → choose_op ids r = Op.update) ∧
    (9/10 ≤ r → choose_op ids r = Op.delete) ∧
    opWeights.getD 0 0 > opWeights.getD 1 0 ∧
    opWeights.getD 1 0 > opWeights.getD 2 0 ∧
    opWeights.getD 2 0 = opWeights.getD 3 0 ∧
    opWeights.getD 3 0 > opWeights.getD 4 0 := by
  refine ⟨rfl, ?_, ?_, ?_, ?_, ?_, by norm_num [opWeights], by norm_num [opWeights],
    by norm_num [opWeights], by norm_num [opWeights]⟩
  · intro h1
    unfold choose_op
    rw [if_pos h1]
  · intro h1 h2
    unfold choose_op
    rw [if_neg (not_lt.mpr h1), if_pos h2]
  · intro h1 h2
    unfold choose_op
    rw [if_neg (not_lt.mpr (by linarith)), if_neg (not_lt.mpr h1), if_pos h2]
  · intro h1 h2
    unfold choose_op
    rw [if_neg (not_lt.mpr (by linarith)), if_neg (not_lt.mpr (by linarith)),
      if_neg (not_lt.mpr h1), if_pos h2]
  · intro h1
    unfold choose_op
    rw [if_neg (not_lt.mpr (by linarith)), if_neg (not_lt.mpr (by linarith)),
      if_neg (not_lt.mpr (by linarith)), if_neg (not_lt.mpr h1)]

/-- Witness for the amended C6 at the concrete draw 0.5. -/
theorem c6_witness :
    choose_op [1] (1/2) = choose_op [] (1/2) ∧ choose_op [1] (1/2) = Op.list := by
  exact ⟨(c6_amended [1] (1/2)).1, (c6_amended [1] (1/2)).2.2.1 (by norm_num) (by norm_num)⟩

/-- C7: in every run whose readiness gate returned false, the worker
aborts — it transitions directly to the finished state having issued no
remote call whatsoever: no create, list, get, update or delete appears in
the trace, no Running iteration executes and no drain listing happens. -/
theorem c7_gate_false_no_ops (cycle start wEnd : Int)
    (apiSched : List (Int × ProbeResult)) (sched : List TimedInput)
    (drainResp : HttpResp (List JItem)) (shuffled : List Int) (g : Bool)
    (hg : wait_for_api wEnd apiSched = some g) (hgf : g = false) :
    (runWorker cycle start g sched drainResp shuffled).aborted = true ∧
    (runWorker cycle start g sched drainResp shuffled).trace = [] ∧
    (runWorker cycle start g sched drainResp shuffled).runningIters = 0 ∧
    (runWorker cycle start g sched drainResp shuffled).drainListings = 0 := by
  subst hgf
  exact ⟨rfl, rfl, rfl, rfl⟩

/-- Witness for C7: a gate whose only probe attempt happens after the
deadline, so `wait_for_api` returns false and the run issues nothing. -/
theorem c7_witness :
    (runWorker 1 0 false [] (HttpResp.response 200 []) []).trace = [] := by
  exact (c7_gate_false_no_ops 1 0 10 [((20:Int), ProbeResult.exn)] []
    (HttpResp.response 200 []) [] false (by decide) rfl).2.1

/-- C9: a create iteration whose HTTP response is successful (status 200
or 201) but whose body yields identifier 0 or no id field at all behaves
exactly like a failed create — the whole loop state (tracked list and
backoff) is unchanged — and the tracked list changes only when the
returned identifier is truthy. -/
theorem c9_untruthy_create_ignored (s : LoopState) (inp : IterInput)
    (hf : inp.fault = false)
    (hop : choose_op s.createdIds inp.opRand = Op.create) :
    (inp.createResp = HttpResp.response 200 { id := some 0 } → (stepIter s inp).1 = s) ∧
    (inp.createResp = HttpResp.response 201 { id := none } → (stepIter s inp).1 = s) ∧
    ((stepIter s inp).1.createdIds ≠ s.createdIds →
      pyTruthyOptInt (create_item inp.createResp) = true) := by
  refine ⟨?_, ?_, ?_⟩
  · intro hr
    simp [stepIter, hf, hop, hr, create_item, pyTruthyOptInt]
  · intro hr
    simp [stepIter, hf, hop, hr, create_item, pyTruthyOptInt]
  · intro hne
    by_contra htr
    apply hne
    rw [Bool.not_eq_true] at htr
    simp [stepIter, hf, hop, htr]

/-- Witness for C9: a 200-status create answering id 0 leaves the loop
state untouched. -/
theorem c9_witness : (stepIter initState inpCreateZero).1 = initState := by
  exact (c9_untruthy_create_ignored initState inpCreateZero rfl (by norm_num [choose_op, inpCreateZero, inp0])).1 rfl

/-- C10: the update payload omits the name field exactly when the first
draw is at least 0.5 (an event of probability 0.5 under a uniform draw)
and omits the price field exactly when the second draw is at least 0.8
(probability 0.2), independently; in particular the draws 0.75 and 0.9
produce a PUT whose partial payload is the empty JSON object. -/
theorem c10_update_payload_may_be_empty :
    (update_item (3/4) (9/10) exNom 5 (HttpResp.response 200 ())).1 =
      { nom := none, prix := none } ∧
    (∀ (r1 r2 prixVal : ℚ) (nomVal : String) (resp : HttpResp Unit),
      ((update_item r1 r2 nomVal prixVal resp).1.nom = none ↔ 1/2 ≤ r1) ∧
      ((update_item r1 r2 nomVal prixVal resp).1.prix = none ↔ 4/5 ≤ r2)) := by
  constructor
  · norm_num [update_item]
  · intro r1 r2 prixVal nomVal resp
    have hpay : (update_item r1 r2 nomVal prixVal resp).1 =
        { nom := if r1 < 1/2 then some nomVal else none
          prix := if r2 < 4/5 then some prixVal else none } := by
      cases resp with
      | response st b =>
          simp only [update_item]
          split_ifs <;> rfl
      | transportFault ft => rfl
    rw [hpay]
    constructor
    · show (if r1 < 1/2 then some nomVal else none) = none ↔ 1/2 ≤ r1
      split_ifs with h
      · simp only [reduceCtorEq, false_iff, not_le]
        exact h
      · simp only [true_iff]
        exact not_lt.mp h
    · show (if r2 < 4/5 then some prixVal else none) = none ↔ 4/5 ≤ r2
      split_ifs with h
      · simp only [reduceCtorEq, false_iff, not_le]
        exact h
      · simp only [true_iff]
        exact not_lt.mp h

/-- Helper: against the infinite deadline every scheduled loop trip
passes the deadline check, so the run executes every supplied iteration
and never exits towards the drain phase. -/
theorem runIters_none_all (sched : List TimedInput) (s : LoopState) :
    (runIters none s sched).iters = sched.length ∧
    (runIters none s sched).drained = false := by
  induction sched generalizing s with
  | nil => exact ⟨rfl, rfl⟩
  | cons ti rest ih =>
      have hb : beforeDeadline ti.t none = true := rfl
      refine ⟨?_, ?_⟩
      · show (runIters none (stepIter s ti.inp).1 rest).iters + 1 = rest.length + 1
        rw [(ih _).1]
      · show (runIters none (stepIter s ti.inp).1 rest).drained = false
        exact (ih _).2

/-- C1 counterexample: with run duration 0 the deadline of `worker.py`
line 175 is infinite, so a run given three loop trips performs three
Running-state actions and no drain-time listing at all — not zero actions
followed by exactly one drain listing as claimed. -/
theorem c1_counterexample :
    (runWorker 0 100 true exSched3 (HttpResp.response 200 []) []).runningIters = 3 ∧
    (runWorker 0 100 true exSched3 (HttpResp.response 200 []) []).drainListings = 0 ∧
    (runWorker 0 100 true exSched3 (HttpResp.response 200 []) []).trace =
      [ApiCall.callList, ApiCall.callList, ApiCall.callList] := by
  refine ⟨by decide, by decide, ?_⟩
  norm_num [runWorker, runIters, stepIter, exSched3, inp0, initState, computeEnd,
    beforeDeadline, choose_op]

/-- C1 amended: for every worker configuration with run duration
(CYCLE_S) zero or negative the run deadline becomes infinite, so the
worker executes every scheduled Running-state iteration, never reaches
the Draining phase and issues no drain-time listing call — it does not
skip the loop in favour of diagnostics. -/
theorem c1_amended (cycle start : Int) (hc : cycle ≤ 0) (sched : List TimedInput)
    (drainResp : HttpResp (List JItem)) (shuffled : List Int) :
    (runWorker cycle start true sched drainResp shuffled).runningIters = sched.length ∧
    (runWorker cycle start true sched drainResp shuffled).reachedDrain = false ∧
    (runWorker cycle start true sched drainResp shuffled).drainListings = 0 := by
  have hend : computeEnd start cycle = none := by
    unfold computeEnd
    rw [if_neg (by omega)]
  have hrun := runIters_none_all sched initState
  simp only [runWorker, hend, if_true]
  rw [hrun.2]
  simp only [Bool.false_eq_true, if_false]
  refine ⟨hrun.1, ?_, ?_⟩ <;> trivial

/-- Witness for the amended C1 at run duration 0 with two loop trips. -/
theorem c1_witness :
    (runWorker 0 50 true exSched2 (HttpResp.response 200 []) []).runningIters = 2 ∧
    (runWorker 0 50 true exSched2 (HttpResp.response 200 []) []).reachedDrain = false ∧
    (runWorker 0 50 true exSched2 (HttpResp.response 200 []) []).drainListings = 0 := by
  have h := c1_amended 0 50 (by norm_num) exSched2 (HttpResp.response 200 []) []
  simpa [exSched2] using h

/-- C5 counterexample: `wait_for_db_sync` does not return false when the
deadline passes without a successful probe — it re-raises the probe
exception instead (`src/app/main.py` line 45): a single probe raising at
time 11 against deadline 10 makes the whole call raise. -/
theorem c5_counterexample :
    wait_for_db_sync 10 [((11:Int), DbProbe.exn)] = some (Except.error ()) := rfl

/-- C5 amended: `wait_for_api` returns true on the first successful
(status 200) probe, returns false — without raising — once a deadline
check fails, and absorbs both non-200 statuses and probe exceptions as
not yet ready; `wait_for_db_sync` returns normally on the first
successful probe and absorbs probe exceptions within the deadline, but
once the deadline has passed it re-raises the probe exception instead of
returning false. -/
theorem c5_amended (endT t : Int) (st : Nat) (rest : List (Int × ProbeResult))
    (rest2 : List (Int × DbProbe)) :
    (t < endT →
      wait_for_api endT ((t, ProbeResult.ok 200) :: rest) = some true) ∧
    (endT ≤ t → ∀ pr : ProbeResult,
      wait_for_api endT ((t, pr) :: rest) = some false) ∧
    (t < endT →
      wait_for_api endT ((t, ProbeResult.exn) :: rest) = wait_for_api endT rest) ∧
    (t < endT → st ≠ 200 →
      wait_for_api endT ((t, ProbeResult.ok st) :: rest) = wait_for_api endT rest) ∧
    (wait_for_db_sync endT ((t, DbProbe.ok) :: rest2) = some (Except.ok ())) ∧
    (endT < t →
      wait_for_db_sync endT ((t, DbProbe.exn) :: rest2) = some (Except.error ())) ∧
    (t ≤ endT →
      wait_for_db_sync endT ((t, DbProbe.exn) :: rest2) = wait_for_db_sync endT rest2) := by
  refine ⟨?_, ?_, ?_, ?_, ?_, ?_, ?_⟩
  · intro h
    simp [wait_for_api, h, probeSuccess]
  · intro h pr
    simp [wait_for_api, not_lt.mpr h]
  · intro h
    simp [wait_for_api, h, probeSuccess]
  · intro h hst
    simp [wait_for_api, h, probeSuccess, hst]
  · simp [wait_for_db_sync]
  · intro h
    simp [wait_for_db_sync, h]
  · intro h
    simp [wait_for_db_sync, not_lt.mpr h]

/-- Witness for the amended C5 at concrete schedules: an in-deadline 200
probe, and a post-deadline raising database probe. -/
theorem c5_witness :
    wait_for_api 10 [((3:Int), ProbeResult.ok 200)] = some true ∧
    wait_for_db_sync 10 [((11:Int), DbProbe.exn)] = some (Except.error ()) := by
  refine ⟨(c5_amended 10 3 500 [] []).1 (by norm_num), ?_⟩
  exact (c5_amended 10 11 500 [] []).2.2.2.2.2.1 (by norm_num)

/-- Helper: an iteration that does not append `x` cannot introduce `x`
into the tracked list. -/
theorem stepIter_count_zero (s : LoopState) (inp : IterInput) (x : Int)
    (hx : s.createdIds.count x = 0) (hn : appendsId inp x = false) :
    ((stepIter s inp).1).createdIds.count x = 0 := by
  unfold appendsId at hn
  by_cases hf : inp.fault = true
  · simp [stepIter, hf, hx]
  · rw [Bool.not_eq_true] at hf
    rw [if_neg (by simp [hf])] at hn
    have hrw : choose_op s.createdIds inp.opRand = choose_op [] inp.opRand :=
      choose_op_const _ _
    cases hop : choose_op [] inp.opRand with
    | create =>
        rw [hop] at hn
        cases hcr : create_item inp.createResp with
        | none => simp [stepIter, hf, hrw, hop, hcr, pyTruthyOptInt, hx]
        | some v =>
            rw [hcr] at hn
            by_cases hv : v = 0
            · simp [stepIter, hf, hrw, hop, hcr, pyTruthyOptInt, hv, hx]
            · have hvx : v ≠ x := by
                intro heq
                rw [heq] at hn
                rw [heq] at hv
                simp [hv] at hn
              have hxv : x ≠ v := hvx.symm
              simp [stepIter, hf, hrw, hop, hcr, pyTruthyOptInt, hv, List.count_append,
                hx, List.count_eq_zero, hxv]
    | list => simp [stepIter, hf, hrw, hop, hx]
    | get =>
        by_cases he : s.createdIds.isEmpty = true
        · simp [stepIter, hf, hrw, hop, he, hx]
        · simp [stepIter, hf, hrw, hop, he, hx]
    | update =>
        by_cases he : s.createdIds.isEmpty = true
        · simp [stepIter, hf, hrw, hop, he, hx]
        · simp [stepIter, hf, hrw, hop, he, hx]
    | delete =>
        by_cases he : s.createdIds.isEmpty = true
        · simp [stepIter, hf, hrw, hop, he, hx]
        · by_cases hd : delete_item inp.delResp = true
          · have hle := (List.erase_sublist
              (s.createdIds.getD (inp.choiceIdx % s.createdIds.length) 0)
              s.createdIds).count_le x
            have hst : ((stepIter s inp).1).createdIds =
                s.createdIds.erase
                  (s.createdIds.getD (inp.choiceIdx % s.createdIds.length) 0) := by
              simp [stepIter, hf, hrw, hop, he, hd]
            rw [hst]
            omega
          · simp [stepIter, hf, hrw, hop, he, hd, hx]

/-- Helper: over a whole schedule, if `x` starts absent and no scheduled
iteration appends it, `x` stays absent from the tracked list. -/
theorem runIters_count_zero (endT : Option Int) (x : Int) :
    ∀ (sched : List TimedInput) (s : LoopState),
      s.createdIds.count x = 0 →
      (∀ ti ∈ sched, appendsId ti.inp x = false) →
      ((runIters endT s sched).state).createdIds.count x = 0 := by
  intro sched
  induction sched with
  | nil => intro s hx hall; exact hx
  | cons ti rest ih =>
      intro s hx hall
      unfold runIters
      by_cases hb : beforeDeadline ti.t endT = true
      · rw [if_pos hb]
        exact ih _ (stepIter_count_zero _ _ _ hx (hall ti (List.mem_cons_self _ _)))
          (fun u hu => hall u (List.mem_cons_of_mem _ hu))
      · rw [if_neg hb]
        exact hx

/-- C4 counterexample: the environment may answer two successful creates
with the same identifier 7; after a successful delete of 7 (targeted at
the tracked list [7, 7]), `list.remove` drops only the first occurrence,
so 7 is still a member of the tracked list although its delete was
observed to succeed. -/
theorem c4_counterexample :
    delete_item inpDeleteOk.delResp = true ∧
    ((stepIter (stepIter initState inpCreate7).1 inpCreate7).1).createdIds = [7, 7] ∧
    ((stepIter (stepIter (stepIter initState inpCreate7).1 inpCreate7).1 inpDeleteOk).1).createdIds
      = [7] := by
  have h1 : (stepIter initState inpCreate7).1 = { createdIds := [7], backoff := 1 } := by
    norm_num [stepIter, inpCreate7, inp0, initState, choose_op, create_item, pyTruthyOptInt]
  have h2 : (stepIter { createdIds := [7], backoff := 1 } inpCreate7).1 =
      { createdIds := [7, 7], backoff := 1 } := by
    norm_num [stepIter, inpCreate7, inp0, choose_op, create_item, pyTruthyOptInt]
  have h3 : (stepIter { createdIds := [7, 7], backoff := 1 } inpDeleteOk).1 =
      { createdIds := [7], backoff := 1 } := by
    norm_num [stepIter, inpDeleteOk, inp0, choose_op, delete_item, List.erase]
  refine ⟨rfl, ?_, ?_⟩
  · rw [h1, h2]
  · rw [h1, h2, h3]

/-- C4 amended: assuming no identifier is returned by two distinct
successful creates (so the tracked list holds each identifier at most
once), the tracked list behaves as claimed: a successful create with
truthy identifier X makes X a member; a successful delete whose chosen
target is X removes X; a create that fails (or returns an untruthy id)
and a delete that fails leave the list unchanged; and an identifier that
is absent and never appended again stays absent — in particular one
whose delete succeeded.  Without the distinctness assumption a
duplicated identifier survives its own successful delete, because
`list.remove` drops one occurrence. -/
theorem c4_amended (s : LoopState) (inp : IterInput) (x : Int)
    (endT : Option Int) (sched : List TimedInput) :
    (inp.fault = false → choose_op s.createdIds inp.opRand = Op.create →
      create_item inp.createResp = some x → x ≠ 0 →
      x ∈ ((stepIter s inp).1).createdIds) ∧
    (inp.fault = false → choose_op s.createdIds inp.opRand = Op.delete →
      s.createdIds.isEmpty = false → delete_item inp.delResp = true →
      s.createdIds.getD (inp.choiceIdx % s.createdIds.length) 0 = x →
      s.createdIds.count x ≤ 1 →
      ((stepIter s inp).1).createdIds.count x = 0) ∧
    (inp.fault = false → choose_op s.createdIds inp.opRand = Op.create →
      pyTruthyOptInt (create_item inp.createResp) = false →
      ((stepIter s inp).1).createdIds = s.createdIds) ∧
    (inp.fault = false → choose_op s.createdIds inp.opRand = Op.delete →
      delete_item inp.delResp = false →
      ((stepIter s inp).1).createdIds = s.createdIds) ∧
    (s.createdIds.count x = 0 →
      (∀ ti ∈ sched, appendsId ti.inp x = false) →
      ((runIters endT s sched).state).createdIds.count x = 0) := by
  refine ⟨?_, ?_, ?_, ?_, ?_⟩
  · intro hf hop hcr hx0
    have ht : pyTruthyOptInt (create_item inp.createResp) = true := by
      simp [hcr, pyTruthyOptInt, bne_iff_ne, hx0]
    rw [hcr] at ht
    simp [stepIter, hf, hop, hcr, ht]
  · intro hf hop hne hdel htgt hcount
    have htgt2 : s.createdIds[inp.choiceIdx % s.createdIds.length]?.getD 0 = x := by
      rw [← List.getD_eq_getElem?_getD]
      exact htgt
    have hstep : ((stepIter s inp).1).createdIds = s.createdIds.erase x := by
      simp [stepIter, hf, hop, hne, hdel, htgt2]
    rw [hstep, List.count_erase_self]
    omega
  · intro hf hop htr
    simp [stepIter, hf, hop, htr]
  · intro hf hop hdel
    by_cases he : s.createdIds.isEmpty = true
    · simp [stepIter, hf, hop, he]
    · simp [stepIter, hf, hop, he, hdel]
  · intro hx hall
    exact runIters_count_zero endT x sched s hx hall

/-- Witness for the amended C4: a successful create of 7 brings 7 into
the tracked list, and a successful delete of 7 from the singleton
tracked list [7] removes it. -/
theorem c4_witness :
    (7:Int) ∈ ((stepIter initState inpCreate7).1).createdIds ∧
    ((stepIter { createdIds := [7], backoff := 1 } inpDeleteOk).1).createdIds.count 7 = 0 := by
  constructor
  · exact (c4_amended initState inpCreate7 7 none []).1 rfl (by norm_num [choose_op, inpCreate7, inp0])
      (by norm_num [create_item, inpCreate7, inp0]) (by norm_num)
  · exact (c4_amended { createdIds := [7], backoff := 1 } inpDeleteOk 7 none []).2.1 rfl
      (by norm_num [choose_op, inpDeleteOk, inp0]) rfl rfl rfl (by norm_num)

/-- C8: at drain time the diagnostics phase extracts the integer
identifiers from the full remote listing and samples
`min 5 (number of valid identifiers)` of them uniformly without
replacement — the sample is a prefix of a uniform shuffle of the valid
ids, so it has exactly that length and is a sub-multiset of the valid
ids; the run trace ends with the single drain listing call followed by
exactly one get per sampled identifier; and an empty listing yields zero
samples without being an error. -/
theorem c8_drain_sampling (resp : HttpResp (List JItem)) (shuffled : List Int)
    (cycle start : Int) (sched : List TimedInput)
    (hperm : List.Perm shuffled (extractValidIds (get_items resp))) :
    (drainDiagnostics resp shuffled).length =
      min 5 (extractValidIds (get_items resp)).length ∧
    List.Subperm (drainDiagnostics resp shuffled) (extractValidIds (get_items resp)) ∧
    (get_items resp = [] → drainDiagnostics resp shuffled = []) ∧
    ((runWorker cycle start true sched resp shuffled).reachedDrain = true →
      (runWorker cycle start true sched resp shuffled).trace =
        (runIters (computeEnd start cycle) initState sched).calls ++
          ApiCall.callList :: (drainDiagnostics resp shuffled).map ApiCall.callGet) := by
  have hlen : shuffled.length = (extractValidIds (get_items resp)).length :=
    hperm.length_eq
  refine ⟨?_, ?_, ?_, ?_⟩
  · simp only [drainDiagnostics, pySample]
    split_ifs with h
    · rw [List.isEmpty_iff] at h
      simp [h]
    · rw [List.length_take, hlen]
      exact min_eq_left (min_le_right 5 _)
  · simp only [drainDiagnostics, pySample]
    split_ifs with h
    · exact List.nil_subperm
    · exact ((List.take_sublist _ _).subperm).trans hperm.subperm
  · intro hnil
    simp [drainDiagnostics, hnil, extractValidIds]
  · intro hdr
    by_cases hd : (runIters (computeEnd start cycle) initState sched).drained = true
    · simp [runWorker, hd]
    · simp [runWorker, hd] at hdr

/-- Witness for C8: a listing with two valid ids yields a sample of
length two, a sub-multiset of the valid ids, and a run that immediately
drains issues the listing call followed by one get per sampled id. -/
theorem c8_witness :
    (drainDiagnostics exListResp exShuffled).length = 2 ∧
    List.Subperm (drainDiagnostics exListResp exShuffled)
      (extractValidIds (get_items exListResp)) ∧
    (runWorker 1 0 true [{ t := 5, inp := inp0 }] exListResp exShuffled).trace =
      (runIters (computeEnd 0 1) initState [{ t := 5, inp := inp0 }]).calls ++
        ApiCall.callList :: (drainDiagnostics exListResp exShuffled).map ApiCall.callGet := by
  have h := c8_drain_sampling exListResp exShuffled 1 0 [{ t := 5, inp := inp0 }] (by decide)
  refine ⟨?_, h.2.1, h.2.2.2 (by decide)⟩
  rw [h.1]
  decide
